import Mathlib

/-!
Verification of the Hawk payload hasher (`src/payload.rs`).

The Rust source defines a single component, `PayloadHasher`, which frames a
payload as `"hawk.1.payload\n" ++ content_type ++ "\n" ++ payload ++ "\n"`
and feeds that byte stream to a pluggable digest primitive from the `ring`
crate. The embedding below represents bytes as natural numbers, a byte
string as `List Nat`, and the external `ring::digest` primitive as an
`Algorithm` record carrying its declared output length and its digest
function on the absorbed byte stream. `ring`'s `digest::Context` is an
incremental absorber, so a context is modelled by the list of bytes absorbed
so far; `Context::finish` applies the algorithm's digest function to that
stream. The `clone_from_slice` call in `finish` panics when the source and
destination lengths differ, so `finish` returns an `Option`: `none` is the
panic branch.
-/

/-- Embedding of `ring::digest::Algorithm` as used by `payload.rs`: a declared
output length in bytes (`output_len`) together with the digest function the
primitive computes over the full absorbed byte stream. -/
structure Algorithm where
  output_len : Nat
  digest : List Nat → List Nat

/-- The contract of the `ring` digest primitive: the digest of any byte stream
has exactly the algorithm's declared output length. Every algorithm `ring`
ships (SHA-256, SHA-384, SHA-512, ...) satisfies this. -/
def Algorithm.WF (a : Algorithm) : Prop :=
  ∀ l : List Nat, (a.digest l).length = a.output_len

/-- Embedding of `struct PayloadHasher`: the `ring` digest context, modelled
as the byte stream absorbed so far, plus the bound algorithm. -/
structure PayloadHasher where
  context : List Nat
  algorithm : Algorithm

/-- Embedding of `PayloadHasher::update`: feed `data` to the context with no
transformation (`self.context.update(data.as_ref())`). -/
def PayloadHasher.update (h : PayloadHasher) (data : List Nat) : PayloadHasher :=
  PayloadHasher.mk (h.context ++ data) h.algorithm

/-- The ASCII bytes of the literal `b"hawk.1.payload\n"` written in
`PayloadHasher::new`. -/
def hawkHeader : List Nat :=
  [104, 97, 119, 107, 46, 49, 46, 112, 97, 121, 108, 111, 97, 100, 10]

/-- Embedding of `PayloadHasher::new`: a fresh context
(`digest::Context::new(algorithm)` has absorbed nothing), then three updates:
the scheme marker `b"hawk.1.payload\n"`, the content-type bytes verbatim, and
a single newline byte `b"\n"` (ASCII 10). -/
def PayloadHasher.new (content_type : List Nat) (algorithm : Algorithm) : PayloadHasher :=
  (((PayloadHasher.mk [] algorithm).update hawkHeader).update content_type).update [10]

/-- The byte stream `PayloadHasher::finish` hands to the primitive: everything
absorbed so far followed by the trailing newline written by
`self.update(b"\n")` at the start of `finish`. -/
def PayloadHasher.finalInput (h : PayloadHasher) : List Nat :=
  (h.update [10]).context

/-- Embedding of `PayloadHasher::finish`: absorb the trailing newline, let the
primitive produce its digest, allocate `rv = vec![0; output_len]`, and copy
the digest into it with `clone_from_slice`, which replaces `rv` by the digest
bytes when the two lengths agree and panics otherwise (the `none` branch). -/
def PayloadHasher.finish (h : PayloadHasher) : Option (List Nat) :=
  let d := h.algorithm.digest h.finalInput
  let rv := List.replicate h.algorithm.output_len 0
  if d.length = rv.length then some d else none

/-- Embedding of `PayloadHasher::hash`: construct via `new`, `update(payload)`
once, then `finish`. -/
def PayloadHasher.hash (content_type : List Nat) (algorithm : Algorithm)
    (payload : List Nat) : Option (List Nat) :=
  ((PayloadHasher.new content_type algorithm).update payload).finish

/-- A sequence of caller `update` calls with chunks `cs`, in invocation
order. -/
def PayloadHasher.updateAll (h : PayloadHasher) (cs : List (List Nat)) : PayloadHasher :=
  cs.foldl PayloadHasher.update h

/-- A stand-in digest primitive used to instantiate theorems whose hypotheses
demand a well-formed algorithm: output length four, digest built from the
stream length. Modelled from the spec: the digest primitive is a pluggable
external capability, so any conforming algorithm may be substituted. -/
def testAlg : Algorithm :=
  Algorithm.mk 4 (fun l => [l.length % 256, 1, 2, 3])

/-!
Modelled from the spec: the concrete SHA-256 digest primitive. The repository
delegates hashing to `ring::digest::SHA256`, an external dependency whose
source is not part of this repository; the spec names the algorithm SHA-256,
so it is modelled here as the standard SHA-256 function of FIPS 180-4,
executable over byte lists, with 32-bit words as naturals reduced mod `2^32`.
-/

/-- A natural number reduced to a 32-bit word. -/
def w32 (n : Nat) : Nat := n % 4294967296

/-- Right rotation of a 32-bit word by `n` places. -/
def rotr (n x : Nat) : Nat := w32 (x / 2 ^ n + x * 2 ^ (32 - n))

/-- Logical right shift of a 32-bit word by `n` places. -/
def shr (n x : Nat) : Nat := x / 2 ^ n

/-- Bitwise complement of a 32-bit word. -/
def bnot32 (x : Nat) : Nat := 4294967295 - x % 4294967296

/-- The SHA-256 choice function `Ch`. -/
def ch (x y z : Nat) : Nat := (x &&& y) ^^^ (bnot32 x &&& z)

/-- The SHA-256 majority function `Maj`. -/
def maj (x y z : Nat) : Nat := (x &&& y) ^^^ (x &&& z) ^^^ (y &&& z)

/-- The SHA-256 compression function `Σ0`. -/
def bsig0 (x : Nat) : Nat := rotr 2 x ^^^ rotr 13 x ^^^ rotr 22 x

/-- The SHA-256 compression function `Σ1`. -/
def bsig1 (x : Nat) : Nat := rotr 6 x ^^^ rotr 11 x ^^^ rotr 25 x

/-- The SHA-256 schedule function `σ0`. -/
def ssig0 (x : Nat) : Nat := rotr 7 x ^^^ rotr 18 x ^^^ shr 3 x

/-- The SHA-256 schedule function `σ1`. -/
def ssig1 (x : Nat) : Nat := rotr 17 x ^^^ rotr 19 x ^^^ shr 10 x

/-- The 64 SHA-256 round constants. -/
def sha256K : List Nat :=
  [1116352408, 1899447441, 3049323471, 3921009573, 961987163,
   1508970993, 2453635748, 2870763221, 3624381080, 310598401,
   607225278, 1426881987, 1925078388, 2162078206, 2614888103,
   3248222580, 3835390401, 4022224774, 264347078, 604807628,
   770255983, 1249150122, 1555081692, 1996064986, 2554220882,
   2821834349, 2952996808, 3210313671, 3336571891, 3584528711,
   113926993, 338241895, 666307205, 773529912, 1294757372,
   1396182291, 1695183700, 1986661051, 2177026350, 2456956037,
   2730485921, 2820302411, 3259730800, 3345764771, 3516065817,
   3600352804, 4094571909, 275423344, 430227734, 506948616,
   659060556, 883997877, 958139571, 1322822218, 1537002063,
   1747873779, 1955562222, 2024104815, 2227730452, 2361852424,
   2428436474, 2756734187, 3204031479, 3329325298]

/-- The eight SHA-256 initial hash values. -/
def sha256H0 : List Nat :=
  [1779033703, 3144134277, 1013904242, 2773480762,
   1359893119, 2600822924, 528734635, 1541459225]

/-- Big-endian grouping of bytes into 32-bit words. -/
def bytesToWords : List Nat → List Nat
  | b0 :: b1 :: b2 :: b3 :: rest =>
      (b0 * 16777216 + b1 * 65536 + b2 * 256 + b3) :: bytesToWords rest
  | _ => []

/-- Big-endian serialization of a 32-bit word to four bytes. -/
def wordToBytes (w : Nat) : List Nat :=
  [w / 16777216 % 256, w / 65536 % 256, w / 256 % 256, w % 256]

/-- Big-endian serialization of a word list to bytes. -/
def wordsToBytes : List Nat → List Nat
  | [] => []
  | w :: ws => wordToBytes w ++ wordsToBytes ws

/-- Big-endian 8-byte encoding of the message bit length. -/
def lenBytes (bits : Nat) : List Nat :=
  [bits / 2 ^ 56 % 256, bits / 2 ^ 48 % 256, bits / 2 ^ 40 % 256,
   bits / 2 ^ 32 % 256, bits / 2 ^ 24 % 256, bits / 2 ^ 16 % 256,
   bits / 2 ^ 8 % 256, bits % 256]

/-- SHA-256 padding: append the byte `0x80`, zero bytes up to 56 mod 64, then
the 64-bit big-endian bit length, reaching a multiple of 64 bytes. -/
def padMessage (msg : List Nat) : List Nat :=
  let L := msg.length
  let zeros := (64 - (L + 9) % 64) % 64
  msg ++ [128] ++ List.replicate zeros 0 ++ lenBytes (L * 8)

/-- Extend a 16-word block to the 64-word message schedule, one word per fuel
step. -/
def extendSchedule : Nat → List Nat → List Nat
  | 0, w => w
  | n + 1, w =>
      let i := w.length
      extendSchedule n
        (w ++ [w32 (ssig1 (w.getD (i - 2) 0) + w.getD (i - 7) 0 +
          ssig0 (w.getD (i - 15) 0) + w.getD (i - 16) 0)])

/-- One SHA-256 compression round on the eight working registers. -/
def sha256Round (st : List Nat) (k w : Nat) : List Nat :=
  let a := st.getD 0 0
  let b := st.getD 1 0
  let c := st.getD 2 0
  let d := st.getD 3 0
  let e := st.getD 4 0
  let f := st.getD 5 0
  let g := st.getD 6 0
  let hh := st.getD 7 0
  let t1 := w32 (hh + bsig1 e + ch e f g + k + w)
  let t2 := w32 (bsig0 a + maj a b c)
  [w32 (t1 + t2), a, b, c, w32 (d + t1), e, f, g]

/-- All 64 compression rounds, driven by the round constants and the message
schedule. -/
def sha256Rounds : List Nat → List Nat → List Nat → List Nat
  | k :: ks, w :: ws, st => sha256Rounds ks ws (sha256Round st k w)
  | _, _, st => st

/-- Compress one 64-byte block into the running 8-word hash state. -/
def sha256Compress (st block : List Nat) : List Nat :=
  let w := extendSchedule 48 (bytesToWords block)
  let st2 := sha256Rounds sha256K w st
  List.zipWith (fun x y => w32 (x + y)) st st2

/-- Fold the compression function over the given number of 64-byte blocks. -/
def sha256Blocks : Nat → List Nat → List Nat → List Nat
  | 0, _, st => st
  | n + 1, msg, st => sha256Blocks n (msg.drop 64) (sha256Compress st (msg.take 64))

/-- The SHA-256 digest of a byte list: pad, compress each block, serialize the
final state big-endian. -/
def sha256 (msg : List Nat) : List Nat :=
  let padded := padMessage msg
  wordsToBytes (sha256Blocks (padded.length / 64) padded sha256H0)

/-- The `ring::digest::SHA256` algorithm: output length 32 bytes, digest
function SHA-256. -/
def SHA256 : Algorithm := Algorithm.mk 32 sha256

set_option maxRecDepth 4000

theorem update_update (h : PayloadHasher) (a b : List Nat) :
    (h.update a).update b = h.update (a ++ b) := by
  simp [PayloadHasher.update]

theorem update_nil (h : PayloadHasher) : h.update [] = h := by
  simp [PayloadHasher.update]

theorem updateAll_eq_update_flatten (h : PayloadHasher) (cs : List (List Nat)) :
    h.updateAll cs = h.update cs.flatten := by
  induction cs generalizing h with
  | nil => simp [PayloadHasher.updateAll, update_nil]
  | cons c cs ih =>
      simp only [PayloadHasher.updateAll, List.foldl_cons, List.flatten_cons]
      rw [show List.foldl PayloadHasher.update (h.update c) cs
            = (h.update c).updateAll cs from rfl, ih, update_update]

theorem algorithm_update (h : PayloadHasher) (d : List Nat) :
    (h.update d).algorithm = h.algorithm := rfl

theorem finish_eq_digest (h : PayloadHasher) (hwf : h.algorithm.WF) :
    h.finish = some (h.algorithm.digest h.finalInput) := by
  simp [PayloadHasher.finish, hwf h.finalInput]

/-- C1: the byte stream absorbed by the digest primitive across
`new(ct, alg)`, any sequence of `update` calls with chunks `cs`, and
`finish()` is exactly `"hawk.1.payload\n" ++ ct ++ "\n" ++ cs.flatten ++ "\n"`:
the preamble is written once at construction before any payload bytes, and
`finish` appends exactly one trailing newline before finalizing. -/
theorem absorbed_stream_canonical (ct : List Nat) (alg : Algorithm)
    (cs : List (List Nat)) :
    ((PayloadHasher.new ct alg).updateAll cs).finalInput
      = hawkHeader ++ ct ++ [10] ++ cs.flatten ++ [10] := by
  rw [updateAll_eq_update_flatten]
  simp [PayloadHasher.finalInput, PayloadHasher.new, PayloadHasher.update]

/-- C3: chunking invariance — feeding the payload via `update(A); update(B)`
produces the same final digest from `finish()` as a single `update(A ++ B)`. -/
theorem chunking_invariance (ct A B : List Nat) (alg : Algorithm) :
    (((PayloadHasher.new ct alg).update A).update B).finish
      = ((PayloadHasher.new ct alg).update (A ++ B)).finish := by
  rw [update_update]

/-- C4: one-shot equivalence — `hash(ct, alg, p)` is byte-identical to the
manual sequence `new(ct, alg)`, `update(p)`, `finish()`. -/
theorem hash_one_shot (ct p : List Nat) (alg : Algorithm) :
    PayloadHasher.hash ct alg p
      = ((PayloadHasher.new ct alg).update p).finish := rfl

/-- C5: output length — for a well-formed algorithm, `finish()` (on any hasher
state) and `hash()` return a byte vector of length exactly the algorithm's
declared `output_len`, independent of input lengths. -/
theorem digest_output_len (h : PayloadHasher) (ct p : List Nat) (alg : Algorithm)
    (hwf : h.algorithm.WF) (hwf2 : alg.WF) :
    (∃ d, h.finish = some d ∧ d.length = h.algorithm.output_len) ∧
    (∃ d, PayloadHasher.hash ct alg p = some d ∧ d.length = alg.output_len) := by
  constructor
  · exact ⟨h.algorithm.digest h.finalInput, finish_eq_digest h hwf, hwf h.finalInput⟩
  · refine ⟨alg.digest ((PayloadHasher.new ct alg).update p).finalInput,
      finish_eq_digest ((PayloadHasher.new ct alg).update p) hwf2, hwf2 _⟩

/-- Witness for C5 at a concrete well-formed algorithm and concrete inputs. -/
theorem digest_output_len_witness :
    ((∃ d, (PayloadHasher.new [1] testAlg).finish = some d ∧
        d.length = (PayloadHasher.new [1] testAlg).algorithm.output_len) ∧
     (∃ d, PayloadHasher.hash [1] testAlg [2] = some d ∧ d.length = testAlg.output_len)) :=
  digest_output_len (PayloadHasher.new [1] testAlg) [1] [2] testAlg
    (fun _ => rfl) (fun _ => rfl)

/-- C6: determinism — `hash(ct, alg, p)` depends on nothing but its inputs, so
repeated invocations agree, and any `new`/`update`/`finish` sequence whose
chunks concatenate to `p` returns the identical digest. -/
theorem hash_deterministic (ct : List Nat) (alg : Algorithm) (cs : List (List Nat)) :
    PayloadHasher.hash ct alg cs.flatten = PayloadHasher.hash ct alg cs.flatten ∧
    ((PayloadHasher.new ct alg).updateAll cs).finish
      = PayloadHasher.hash ct alg cs.flatten := by
  refine ⟨rfl, ?_⟩
  rw [updateAll_eq_update_flatten]
  rfl

/-- C7: totality — for a well-formed algorithm, `new`, any sequence of
`update` calls, and `finish` run to completion without reaching the panic
branch of `clone_from_slice` (the digest length always equals `output_len`),
and likewise for `hash`. -/
theorem no_runtime_faults (ct p : List Nat) (alg : Algorithm)
    (cs : List (List Nat)) (hwf : alg.WF) :
    ((PayloadHasher.new ct alg).updateAll cs).finish.isSome ∧
    (PayloadHasher.hash ct alg p).isSome := by
  constructor
  · rw [updateAll_eq_update_flatten, finish_eq_digest]
    · rfl
    · exact hwf
  · rw [PayloadHasher.hash, finish_eq_digest]
    · rfl
    · exact hwf

/-- Witness for C7 at a concrete well-formed algorithm and concrete inputs. -/
theorem no_runtime_faults_witness :
    ((PayloadHasher.new [1] testAlg).updateAll [[2], [3]]).finish.isSome ∧
    (PayloadHasher.hash [1] testAlg [2]).isSome :=
  no_runtime_faults [1] [2] testAlg [[2], [3]] (fun _ => rfl)

/-- C8: framing ambiguity at the newline boundary — a content type containing
a newline collides with a shorter content type and a shifted payload:
`hash(u ++ "\n" ++ v, alg, p) = hash(u, alg, v ++ "\n" ++ p)`. -/
theorem newline_framing_collision (u v p : List Nat) (alg : Algorithm) :
    PayloadHasher.hash (u ++ [10] ++ v) alg p
      = PayloadHasher.hash u alg (v ++ [10] ++ p) := by
  simp [PayloadHasher.hash, PayloadHasher.new, PayloadHasher.update]

/-- C9: an empty `update` is the identity — for every hasher state `h`,
`finish` after `update(h, [])` equals `finish` after `h` alone, so inserting
an empty update anywhere between construction and `finish` cannot change the
digest. -/
theorem update_nil_finish (h : PayloadHasher) :
    (h.update []).finish = h.finish := by
  rw [update_nil]

/-- C10: zero-update finalization equals hashing the empty payload —
`finish()` straight after `new(ct, alg)` returns the same digest as
`hash(ct, alg, [])`. -/
theorem finish_new_eq_hash_nil (ct : List Nat) (alg : Algorithm) :
    (PayloadHasher.new ct alg).finish = PayloadHasher.hash ct alg [] := by
  rw [PayloadHasher.hash, update_nil]

/-- C2: with content type `"text/plain"` (bytes 116,101,120,116,47,112,108,
97,105,110), algorithm SHA-256, and payload the UTF-8 bytes of `pàyload`
(112,195,160,121,108,111,97,100), `hash` returns exactly the canonical
32-byte interop fixture. -/
theorem hash_text_plain_sha256_fixture :
    PayloadHasher.hash [116, 101, 120, 116, 47, 112, 108, 97, 105, 110] SHA256
        [112, 195, 160, 121, 108, 111, 97, 100]
      = some [228, 238, 241, 224, 235, 114, 158, 112, 211, 254, 118, 89, 25,
          236, 87, 176, 181, 54, 61, 135, 42, 223, 188, 103, 194, 59, 83, 36,
          136, 31, 198, 50] := by
  decide
